import Mathlib

/-!
Verification of the ib-flex FLEX-statement parser.

This file gives a shallow embedding, in Lean 4, of the normalization and
classification layer of the `ib-flex` Rust crate: the primitive attribute
decoders (`src/parsers/xml_utils.rs`), the code tables
(`src/types/common.rs`), the trade-activity section classifier and the
`derivative()` projection (`src/types/activity.rs`), the statement
extraction (`src/parsers/activity.rs`) and the root dispatcher
(`src/version.rs`).  Pure functions of the source are translated into
executable Lean functions; fallible code returns `Option` or `Except`.
Behavior supplied by external crates (serde, quick-xml, chrono) is
modelled explicitly and each such definition carries a doc comment
starting with `Modelled from the spec:`.
-/

namespace IbFlex

/-! ## Decimal values

`rust_decimal::Decimal` is an exact scaled integer (mantissa times
ten to the minus scale).  The verified properties never depend on
decimal arithmetic, only on which strings decode and on equality of
decoded values, so the embedding keeps the mantissa/scale pair.
-/

/-- Exact decimal number: `mantissa / 10 ^ scale`. -/
structure Decimal where
  mantissa : Int
  scale : Nat
deriving DecidableEq, Repr

/-- Value of an ASCII digit character. -/
def digitVal (c : Char) : Nat := c.toNat - 48

/-- Modelled from the spec: `rust_decimal`'s string parser is external to
`src/`; per the spec a decimal is arbitrary-precision decimal text,
an optional sign followed by digits with at most one decimal point,
never passed through binary floating point. -/
def parseDecimal (s : String) : Option Decimal :=
  let cs := s.data
  let (neg, body) :=
    match cs with
    | '-' :: rest => (true, rest)
    | '+' :: rest => (false, rest)
    | _ => (false, cs)
  let intPart := body.takeWhile Char.isDigit
  let rest := body.dropWhile Char.isDigit
  match rest with
  | [] =>
    if intPart.isEmpty then none
    else
      let m : Int := Int.ofNat (intPart.foldl (fun a c => a * 10 + digitVal c) 0)
      some ⟨if neg then -m else m, 0⟩
  | '.' :: frac =>
    if frac.all Char.isDigit ∧ ¬ (intPart.isEmpty ∧ frac.isEmpty) then
      let ds := intPart ++ frac
      let m : Int := Int.ofNat (ds.foldl (fun a c => a * 10 + digitVal c) 0)
      some ⟨if neg then -m else m, frac.length⟩
    else none
  | _ => none

/-! ## Code tables (`src/types/common.rs`)

Each enumeration carries the exact textual vocabulary declared by the
source's serde `rename` attributes, and a reserved `Unknown` member that
the source reaches through `#[serde(other)]` for any unmatched token.
The per-table decode functions below are the embedding of those derived
string-to-variant lookups: an if-chain over the declared renames, in
declaration order, falling through to `Unknown`.
-/

/-- Asset category (security type), `AssetCategory` in `common.rs`. -/
inductive AssetCategory where
  | Stock | Option | Future | FutureOption | Cash | Bond | Bill
  | Commodity | Cfd | ForexCfd | Warrant | Fund | StructuredProduct
  | Bag | Cryptocurrency | Metal | ExchangeForPhysical | EventContract
  | Index | Unknown
deriving DecidableEq, Repr

/-- The declared textual vocabulary of `AssetCategory`. -/
def assetCategoryVocab : List String :=
  ["STK", "OPT", "FUT", "FOP", "CASH", "BOND", "BILL", "CMDTY", "CFD",
   "FXCFD", "WAR", "FUND", "IOPT", "BAG", "CRYPTO", "METAL", "EFP",
   "EC", "IND"]

/-- Decode of the `AssetCategory` code table: exact match against the
declared renames, `Unknown` otherwise. -/
def parseAssetCategory (s : String) : AssetCategory :=
  if s = "STK" then .Stock
  else if s = "OPT" then .Option
  else if s = "FUT" then .Future
  else if s = "FOP" then .FutureOption
  else if s = "CASH" then .Cash
  else if s = "BOND" then .Bond
  else if s = "BILL" then .Bill
  else if s = "CMDTY" then .Commodity
  else if s = "CFD" then .Cfd
  else if s = "FXCFD" then .ForexCfd
  else if s = "WAR" then .Warrant
  else if s = "FUND" then .Fund
  else if s = "IOPT" then .StructuredProduct
  else if s = "BAG" then .Bag
  else if s = "CRYPTO" then .Cryptocurrency
  else if s = "METAL" then .Metal
  else if s = "EFP" then .ExchangeForPhysical
  else if s = "EC" then .EventContract
  else if s = "IND" then .Index
  else .Unknown

/-- Buy or Sell side, `BuySell` in `common.rs`. -/
inductive BuySell where
  | Buy | Sell | CancelBuy | CancelSell | Unknown
deriving DecidableEq, Repr

/-- Open/Close indicator, `OpenClose` in `common.rs`. -/
inductive OpenClose where
  | Open | Close | CloseOpen | Unknown
deriving DecidableEq, Repr

/-- Order type, `OrderType` in `common.rs`. -/
inductive OrderType where
  | Market | Limit | Stop | StopLimit | MarketOnClose | LimitOnClose
  | MarketIfTouched | LimitIfTouched | TrailingStop | TrailingLimit
  | MidPrice | Relative | Multiple | Unknown
deriving DecidableEq, Repr

/-- The declared textual vocabulary of `OrderType`. -/
def orderTypeVocab : List String :=
  ["MKT", "LMT", "STP", "STP LMT", "MOC", "LOC", "MIT", "LIT",
   "TRAIL", "TRAIL LMT", "MIDPX", "REL", "MULTIPLE"]

/-- Decode of the `OrderType` code table. -/
def parseOrderType (s : String) : OrderType :=
  if s = "MKT" then .Market
  else if s = "LMT" then .Limit
  else if s = "STP" then .Stop
  else if s = "STP LMT" then .StopLimit
  else if s = "MOC" then .MarketOnClose
  else if s = "LOC" then .LimitOnClose
  else if s = "MIT" then .MarketIfTouched
  else if s = "LIT" then .LimitIfTouched
  else if s = "TRAIL" then .TrailingStop
  else if s = "TRAIL LMT" then .TrailingLimit
  else if s = "MIDPX" then .MidPrice
  else if s = "REL" then .Relative
  else if s = "MULTIPLE" then .Multiple
  else .Unknown

/-- Put or Call, `PutCall` in `common.rs`. -/
inductive PutCall where
  | Put | Call | Unknown
deriving DecidableEq, Repr

/-- Transaction type for trades, `TradeType` in `common.rs`. -/
inductive TradeType where
  | ExchTrade | BookTrade | DvpTrade | FracShare | FracShareCancel
  | Adjustment | TradeCorrect | TradeCancel | IBKRTrade | Unknown
deriving DecidableEq, Repr

/-- Security identifier type, `SecurityIdType` in `common.rs`. -/
inductive SecurityIdType where
  | Cusip | Isin | Figi | Sedol | Unknown
deriving DecidableEq, Repr

/-- Security sub-category, `SubCategory` in `common.rs`. -/
inductive SubCategory where
  | Etf | Adr | Reit | Preferred | Common | DepositaryReceipt | Gdr
  | LimitedPartnership | MasterLimitedPartnership | Right | Unit
  | WhenIssued | Tracking | ClosedEndFund | Unknown
deriving DecidableEq, Repr

/-- Level of detail for reporting, `LevelOfDetail` in `common.rs`. -/
inductive LevelOfDetail where
  | Summary | Detail | Execution | Lot | Unknown
deriving DecidableEq, Repr

/-- Transaction classification code, `TransactionCode` in `common.rs`.
These appear in `notes` fields and can be combined,
e.g. closing plus wash sale. -/
inductive TransactionCode where
  | Assignment | Adjustment | Allocation | AutoExercise | AutoFx
  | AwayTrade | BuyIn | BorrowFee | Cancelled | Closing | CashDelivery
  | ComplexPosition | Correction | Crossing | DualAgent | Etf | Expired
  | Exercise | Guaranteed | HighestCost | HfInvestment | HfRedemption
  | InternalTransfer | Affiliate | Investor | MarginLiquidation | Lifo
  | Loan | LongTermGain | ManualEntry | MaxLoss | MinLongTermGain
  | MaxShortTermGain | MinShortTermGain | ManualExercise | Opening
  | Partial | FracRiskless | FracPrincipal | PriceImprovement
  | PostAccrual | Principal | Reinvestment | Redemption | Reopen
  | Reverse | Reimbursement | SolicitedIb | SpecificLot | SolicitedOther
  | ShortSettlement | ShortTermGain | StockYield | Transfer | WashSale
  | Unknown
deriving DecidableEq, Repr

/-- Decode of the `TransactionCode` code table: exact match against the
declared renames, `Unknown` otherwise (reached through
`#[serde(other)]` in the source). -/
def parseTransactionCode (s : String) : TransactionCode :=
  if s = "A" then .Assignment
  else if s = "Adj" then .Adjustment
  else if s = "Al" then .Allocation
  else if s = "Ae" then .AutoExercise
  else if s = "Af" then .AutoFx
  else if s = "Aw" then .AwayTrade
  else if s = "B" then .BuyIn
  else if s = "Bo" then .BorrowFee
  else if s = "Ca" then .Cancelled
  else if s = "C" then .Closing
  else if s = "Cd" then .CashDelivery
  else if s = "Cp" then .ComplexPosition
  else if s = "Cr" then .Correction
  else if s = "Cs" then .Crossing
  else if s = "D" then .DualAgent
  else if s = "Et" then .Etf
  else if s = "Ex" then .Expired
  else if s = "O" then .Exercise
  else if s = "G" then .Guaranteed
  else if s = "Hc" then .HighestCost
  else if s = "Hi" then .HfInvestment
  else if s = "Hr" then .HfRedemption
  else if s = "I" then .InternalTransfer
  else if s = "Ia" then .Affiliate
  else if s = "Iv" then .Investor
  else if s = "L" then .MarginLiquidation
  else if s = "Li" then .Lifo
  else if s = "Ln" then .Loan
  else if s = "Lt" then .LongTermGain
  else if s = "M" then .ManualEntry
  else if s = "Ml" then .MaxLoss
  else if s = "Mn" then .MinLongTermGain
  else if s = "Ms" then .MaxShortTermGain
  else if s = "Mi" then .MinShortTermGain
  else if s = "Mx" then .ManualExercise
  else if s = "P" then .Opening
  else if s = "Pt" then .Partial
  else if s = "Fr" then .FracRiskless
  else if s = "Fp" then .FracPrincipal
  else if s = "Pi" then .PriceImprovement
  else if s = "Pa" then .PostAccrual
  else if s = "Pr" then .Principal
  else if s = "Re" then .Reinvestment
  else if s = "Rd" then .Redemption
  else if s = "R" then .Reopen
  else if s = "Rv" then .Reverse
  else if s = "Ri" then .Reimbursement
  else if s = "Si" then .SolicitedIb
  else if s = "Sp" then .SpecificLot
  else if s = "So" then .SolicitedOther
  else if s = "Ss" then .ShortSettlement
  else if s = "St" then .ShortTermGain
  else if s = "Sy" then .StockYield
  else if s = "T" then .Transfer
  else if s = "W" then .WashSale
  else .Unknown

/-! ## Dates (`parse_flex_date` in `src/parsers/xml_utils.rs`)

The source tries the ISO form `YYYY-MM-DD` first and falls back to the
compact form `YYYYMMDD`.  The two concrete format grammars are executed
by chrono's `NaiveDate::parse_from_str`, which is external to `src/`;
they are modelled here from the spec, with numeric fields consumed
greedily up to the field width (at least one digit) and the parsed
year/month/day resolved against the proleptic Gregorian calendar.
-/

/-- Calendar date as parsed from a FLEX attribute. -/
structure FlexDate where
  year : Nat
  month : Nat
  day : Nat
deriving DecidableEq, Repr

/-- Proleptic Gregorian leap-year rule. -/
def isLeapYear (y : Nat) : Bool :=
  y % 4 = 0 ∧ (y % 100 ≠ 0 ∨ y % 400 = 0)

/-- Number of days of month `m` of year `y` (0 when `m` is not 1..12). -/
def daysInMonth (y m : Nat) : Nat :=
  if m = 1 then 31 else if m = 2 then (if isLeapYear y then 29 else 28)
  else if m = 3 then 31 else if m = 4 then 30 else if m = 5 then 31
  else if m = 6 then 30 else if m = 7 then 31 else if m = 8 then 31
  else if m = 9 then 30 else if m = 10 then 31 else if m = 11 then 30
  else if m = 12 then 31 else 0

/-- Whether `y`-`m`-`d` is a real calendar date. -/
def validYmd (y m d : Nat) : Bool :=
  1 ≤ m ∧ m ≤ 12 ∧ 1 ≤ d ∧ d ≤ daysInMonth y m

/-- Greedily consume up to `max` digit characters, accumulating their
value onto `acc`; stops at the first non-digit. -/
def scanDigits : Nat → List Char → Nat → Nat × List Char
  | 0, cs, acc => (acc, cs)
  | _ + 1, [], acc => (acc, [])
  | max + 1, c :: cs, acc =>
    if c.isDigit then scanDigits max cs (acc * 10 + digitVal c)
    else (acc, c :: cs)

/-- Consume an unsigned number of one to `max` digits; fails when the
input does not start with a digit. -/
def scanNumber (cs : List Char) (max : Nat) : Option (Nat × List Char) :=
  match cs with
  | c :: _ => if c.isDigit then some (scanDigits max cs 0) else none
  | [] => none

/-- Consume a literal character. -/
def expectChar (c : Char) : List Char → Option (List Char)
  | d :: cs => if d = c then some cs else none
  | [] => none

/-- Modelled from the spec: the ISO date form `YYYY-MM-DD` (chrono
format string percent-Y dash percent-m dash percent-d), the whole
input consumed, resolved to a real calendar date. -/
def parseIsoDate (cs : List Char) : Option FlexDate :=
  (scanNumber cs 4).bind fun py =>
  (expectChar '-' py.2).bind fun r2 =>
  (scanNumber r2 2).bind fun pm =>
  (expectChar '-' pm.2).bind fun r4 =>
  (scanNumber r4 2).bind fun pd =>
  if pd.2 = [] ∧ validYmd py.1 pm.1 pd.1 then some ⟨py.1, pm.1, pd.1⟩
  else none

/-- Modelled from the spec: the compact 8-digit date form `YYYYMMDD`
(chrono format string percent-Y percent-m percent-d), the whole input
consumed, resolved to a real calendar date. -/
def parseCompactDate (cs : List Char) : Option FlexDate :=
  (scanNumber cs 4).bind fun py =>
  (scanNumber py.2 2).bind fun pm =>
  (scanNumber pm.2 2).bind fun pd =>
  if pd.2 = [] ∧ validYmd py.1 pm.1 pd.1 then some ⟨py.1, pm.1, pd.1⟩
  else none

/-- `parse_flex_date` of `xml_utils.rs`: try the ISO format first,
then the compact format. -/
def parse_flex_date (s : String) : Option FlexDate :=
  match parseIsoDate s.data with
  | some d => some d
  | none => parseCompactDate s.data

/-! ## Optional-attribute decoders (`src/parsers/xml_utils.rs`)

Each decoder receives the raw attribute as `Option String`: `none` for
an omitted attribute, `some v` for a present one.  Fallible decoding
returns `Except String`, mirroring the Rust `Result<_, D::Error>`.
-/

/-- `deserialize_flex_date`: a date in either accepted format,
mandatory. -/
def deserialize_flex_date (s : String) : Except String FlexDate :=
  match parse_flex_date s with
  | some d => Except.ok d
  | none => Except.error "input contains invalid characters"

/-- `deserialize_optional_date`: empty or absent is no value, otherwise
both date formats are accepted. -/
def deserialize_optional_date (s : Option String) :
    Except String (Option FlexDate) :=
  match s with
  | none => Except.ok none
  | some t =>
    if t = "" then Except.ok none
    else
      match parse_flex_date t with
      | some d => Except.ok (some d)
      | none => Except.error "input contains invalid characters"

/-- `deserialize_optional_decimal`: empty or absent is no value,
otherwise the text must parse as a decimal. -/
def deserialize_optional_decimal (s : Option String) :
    Except String (Option Decimal) :=
  match s with
  | none => Except.ok none
  | some t =>
    if t = "" then Except.ok none
    else
      match parseDecimal t with
      | some d => Except.ok (some d)
      | none => Except.error "Invalid decimal"

/-- `deserialize_optional_string`: empty or absent is no value. -/
def deserialize_optional_string (s : Option String) :
    Except String (Option String) :=
  match s with
  | none => Except.ok none
  | some t => if t = "" then Except.ok none else Except.ok (some t)

/-- `deserialize_optional_bool`: Y/y is true, N/n is false, empty or
absent is no value, anything else is a decode error. -/
def deserialize_optional_bool (s : Option String) :
    Except String (Option Bool) :=
  match s with
  | none => Except.ok none
  | some t =>
    if t = "" then Except.ok none
    else if t = "Y" then Except.ok (some true)
    else if t = "y" then Except.ok (some true)
    else if t = "N" then Except.ok (some false)
    else if t = "n" then Except.ok (some false)
    else Except.error ("Invalid boolean value " ++ t ++ ", expected Y or N")

/-- Rust `str::split` on a single-character separator: the list of
(possibly empty) chunks between separators. -/
def splitSemis : List Char → List (List Char)
  | [] => [[]]
  | c :: cs =>
    if c = ';' then [] :: splitSemis cs
    else
      match splitSemis cs with
      | [] => [[c]]
      | t :: ts => (c :: t) :: ts

/-- `deserialize_transaction_codes`: empty or absent is no value;
otherwise split on semicolons, drop empty chunks, and decode every
remaining token through the `TransactionCode` table (an unknown token
decodes to `Unknown`, surfaced in the source only as a warning on
stderr, never as an error). -/
def deserialize_transaction_codes (s : Option String) :
    Except String (Option (List TransactionCode)) :=
  match s with
  | none => Except.ok none
  | some t =>
    if t = "" then Except.ok none
    else
      Except.ok (some
        (((splitSemis t.data).filter (fun w => !w.isEmpty)).map
          (fun w => parseTransactionCode (String.mk w))))

/-! ## The Trade record (`src/types/activity.rs`)

One execution (or, in the interleaved trade-activity section, an order
summary, a per-symbol or per-asset aggregate, a wash-sale adjustment or
a tax lot sharing the same attribute dictionary).  Field list and order
follow the source struct; raw-string `Option<String>` fields remain
`Option String`, dates, decimals, booleans and code lists hold the
values produced by the decoders above.
-/

/-- A single trade execution, `Trade` in `activity.rs`. -/
structure Trade where
  account_id : String
  transaction_id : Option String := none
  conid : String
  symbol : String
  description : Option String := none
  asset_category : AssetCategory
  cusip : Option String := none
  isin : Option String := none
  figi : Option String := none
  security_id : Option String := none
  security_id_type : Option SecurityIdType := none
  multiplier : Option Decimal := none
  strike : Option Decimal := none
  expiry : Option FlexDate := none
  put_call : Option PutCall := none
  underlying_conid : Option String := none
  underlying_symbol : Option String := none
  trade_date : Option FlexDate := none
  settle_date : Option FlexDate := none
  buy_sell : Option BuySell := none
  open_close : Option OpenClose := none
  transaction_type : Option TradeType := none
  quantity : Option Decimal := none
  trade_price : Option Decimal := none
  proceeds : Option Decimal := none
  cost : Option Decimal := none
  commission : Option Decimal := none
  taxes : Option Decimal := none
  net_cash : Option Decimal := none
  fifo_pnl_realized : Option Decimal := none
  mtm_pnl : Option Decimal := none
  fx_pnl : Option Decimal := none
  currency : String
  fx_rate_to_base : Option Decimal := none
  orig_trade_date : Option FlexDate := none
  orig_trade_price : Option Decimal := none
  orig_trade_id : Option String := none
  holding_period_date_time : Option String := none
  open_date_time : Option String := none
  when_reopened : Option String := none
  notes : Option (List TransactionCode) := none
  ib_order_id : Option String := none
  exec_id : Option String := none
  trade_id : Option String := none
  orig_transaction_id : Option String := none
  orig_order_id : Option String := none
  trade_time : Option String := none
  when_realized : Option String := none
  order_time : Option String := none
  order_type : Option OrderType := none
  brokerage_order_id : Option String := none
  order_reference : Option String := none
  exch_order_id : Option String := none
  ext_exec_id : Option String := none
  ib_exec_id : Option String := none
  issuer : Option String := none
  issuer_country_code : Option String := none
  sub_category : Option SubCategory := none
  listing_exchange : Option String := none
  underlying_listing_exchange : Option String := none
  underlying_security_id : Option String := none
  trader_id : Option String := none
  is_api_order : Option Bool := none
  volatility_order_link : Option String := none
  clearing_firm_id : Option String := none
  level_of_detail : Option LevelOfDetail := none
  amount : Option Decimal := none
  trade_money : Option Decimal := none
  close_price : Option Decimal := none
  change_in_price : Option Decimal := none
  change_in_quantity : Option Decimal := none
  commission_currency : Option String := none
  related_trade_id : Option String := none
  related_transaction_id : Option String := none
  accrued_int : Option Decimal := none
  principal_adjust_factor : Option Decimal := none
  serial_number : Option String := none
  delivery_type : Option String := none
  commodity_type : Option String := none
  fineness : Option Decimal := none
  weight : Option String := none
  report_date : Option FlexDate := none
  exchange : Option String := none
  model : Option String := none
  acct_alias : Option String := none
  rtn : Option String := none
  position_action_id : Option String := none
  initial_investment : Option Decimal := none
deriving DecidableEq, Repr

/-- Derivative instrument information, `DerivativeInfo` in
`common.rs`: the consolidated option/future/warrant view. -/
inductive DerivativeInfo where
  /-- Option contract: strike, expiry, put/call, underlying symbol,
  underlying contract id. -/
  | Opt (strike : Decimal) (expiry : FlexDate) (put_call : PutCall)
      (underlying_symbol : String) (underlying_conid : Option String)
  /-- Future contract: expiry, underlying symbol, underlying
  contract id. -/
  | Future (expiry : FlexDate) (underlying_symbol : String)
      (underlying_conid : Option String)
  /-- Option on a future: strike, expiry, put/call, underlying symbol,
  underlying contract id. -/
  | FutureOption (strike : Decimal) (expiry : FlexDate)
      (put_call : PutCall) (underlying_symbol : String)
      (underlying_conid : Option String)
  /-- Warrant: optional strike, optional expiry, optional underlying
  symbol. -/
  | Warrant (strike : Option Decimal) (expiry : Option FlexDate)
      (underlying_symbol : Option String)
deriving DecidableEq, Repr

/-- `Trade::derivative` of `activity.rs`: builds the consolidated
derivative view from the flat fields, by asset category; absent
whenever a category-specific required field is missing or the
category is not a derivative one. -/
def Trade.derivative (t : Trade) : Option DerivativeInfo :=
  match t.asset_category with
  | .Option =>
    match t.strike, t.expiry, t.put_call, t.underlying_symbol with
    | some strike, some expiry, some put_call, some us =>
      some (.Opt strike expiry put_call us t.underlying_conid)
    | _, _, _, _ => none
  | .Future =>
    match t.expiry, t.underlying_symbol with
    | some expiry, some us =>
      some (.Future expiry us t.underlying_conid)
    | _, _ => none
  | .FutureOption =>
    match t.strike, t.expiry, t.put_call, t.underlying_symbol with
    | some strike, some expiry, some put_call, some us =>
      some (.FutureOption strike expiry put_call us t.underlying_conid)
    | _, _, _, _ => none
  | .Warrant =>
    match t.underlying_symbol with
    | some us => some (.Warrant t.strike t.expiry (some us))
    | none => none
  | _ => none

/-! ## The trade-activity section classifier (`src/types/activity.rs`)

The `<Trades>` section interleaves six element kinds by symbol.  Every
child decodes through the shared `Trade` record decoder; the tag name
selects the `TradesItem` variant.  `TradesWrapper::deserialize` then
routes `Trade`-tagged elements into `items` and `WashSale`-tagged
elements into `wash_sales`, discarding the other four kinds.
-/

/-- Element kinds of the `<Trades>` section, `TradesItem` in
`activity.rs`. -/
inductive TradesItem where
  | Trade (t : Trade)
  | Order (t : Trade)
  | SymbolSummary (t : Trade)
  | AssetSummary (t : Trade)
  | WashSale (t : Trade)
  | Lot (t : Trade)
deriving DecidableEq, Repr

/-- Decoded trades section, `TradesWrapper` in `activity.rs`. -/
structure TradesWrapper where
  items : List Trade := []
  wash_sales : List Trade := []
deriving DecidableEq, Repr

/-- The routing loop of `TradesWrapper::deserialize`: push each
`Trade`-tagged element onto `items`, each `WashSale`-tagged element
onto `wash_sales`, ignore the rest. -/
def routeTradesItems : List TradesItem → TradesWrapper → TradesWrapper
  | [], acc => acc
  | item :: rest, acc =>
    routeTradesItems rest
      (match item with
       | .Trade t => { acc with items := acc.items ++ [t] }
       | .WashSale t => { acc with wash_sales := acc.wash_sales ++ [t] }
       | _ => acc)

/-- `TradesWrapper::deserialize` of `activity.rs`, applied to the
already-decoded child sequence of a `<Trades>` section. -/
def TradesWrapper.deserialize (raw : List TradesItem) : TradesWrapper :=
  routeTradesItems raw { items := [], wash_sales := [] }

/-! ## Statements (`src/types/activity.rs`, `src/parsers/activity.rs`)

`ActivityFlexStatement` carries the statement-level attributes and one
collection per record kind; the embedding keeps the attributes and the
trade-activity section, which are the parts the verified properties
range over (the remaining per-kind collections of the source struct
are further independent section fields of the same shape as
`trades`). -/

/-- Per-day activity statement, `ActivityFlexStatement` in
`activity.rs` (statement-level attributes plus the trades section). -/
structure ActivityFlexStatement where
  account_id : String
  from_date : FlexDate
  to_date : FlexDate
  when_generated : String
  trades : TradesWrapper := {}
deriving DecidableEq, Repr

/-- Wrapper for the statement list, `FlexStatementsWrapper` in
`activity.rs`; `statements` is the document-order sequence of per-day
statements. -/
structure FlexStatementsWrapper where
  count : Option String := none
  statements : List ActivityFlexStatement
deriving DecidableEq, Repr

/-- Top-level FLEX query response, `FlexQueryResponse` in
`activity.rs`. -/
structure FlexQueryResponse where
  query_name : Option String := none
  query_type : Option String := none
  statements : FlexStatementsWrapper
deriving DecidableEq, Repr

/-- Parse errors, `ParseError` in `src/error.rs` (the variants the
embedded operations produce). -/
inductive ParseError where
  /-- XML-level error with a message. -/
  | XmlError (message : String)
  /-- A mandatory field or element is missing. -/
  | MissingField (field : String) (context : String)
deriving DecidableEq, Repr

/-- `parse_activity_flex` of `src/parsers/activity.rs`, applied to the
decoded response: extract the first statement, failing when the
response wraps none. -/
def parse_activity_flex (response : FlexQueryResponse) :
    Except ParseError ActivityFlexStatement :=
  match response.statements.statements with
  | [] => Except.error (ParseError.MissingField "FlexStatement" "FlexQueryResponse")
  | s :: _ => Except.ok s

/-- Total ordering key of a calendar date (strictly monotone in
year, then month, then day). -/
def FlexDate.key (d : FlexDate) : Nat :=
  (d.year * 13 + d.month) * 32 + d.day

/-- Chronological order on dates. -/
def FlexDate.le (a b : FlexDate) : Bool := a.key ≤ b.key

/-! ## Attribute-level record decoding

The derived serde/quick-xml deserializers that feed the record structs
are external to `src/`; the two definitions below model the attribute
plumbing from the spec.  An XML element's attributes are a lookup
function from attribute name to raw value; an omitted attribute looks
up to `none`. -/

/-- Modelled from the spec: decoding of a plain optional attribute
field (one declared with serde `default` and no custom deserializer,
e.g. `putCall` or `underlyingConid` on `Trade`); per the spec an
attribute that is present with the empty string and an attribute that
is omitted are both treated as no value. -/
def plainOptionalAttr (attrs : String → Option String) (name : String) :
    Option String :=
  match attrs name with
  | none => none
  | some v => if v = "" then none else some v

/-- Modelled from the spec: the serde-derive decoding of the
statement-level attributes of a `FlexStatement` element (the section
children are decoded separately); `accountId`, `fromDate`, `toDate`
and `whenGenerated` are mandatory, the two dates go through the
source's `deserialize_flex_date`. -/
def decodeActivityFlexStatement (attrs : String → Option String) :
    Except ParseError ActivityFlexStatement :=
  match attrs "accountId" with
  | none => Except.error (ParseError.MissingField "accountId" "FlexStatement")
  | some acct =>
    match attrs "fromDate" with
    | none => Except.error (ParseError.MissingField "fromDate" "FlexStatement")
    | some fd =>
      match attrs "toDate" with
      | none => Except.error (ParseError.MissingField "toDate" "FlexStatement")
      | some td =>
        match attrs "whenGenerated" with
        | none => Except.error (ParseError.MissingField "whenGenerated" "FlexStatement")
        | some wg =>
          match deserialize_flex_date fd with
          | Except.error e => Except.error (ParseError.XmlError e)
          | Except.ok fromDate =>
            match deserialize_flex_date td with
            | Except.error e => Except.error (ParseError.XmlError e)
            | Except.ok toDate =>
              Except.ok
                { account_id := acct, from_date := fromDate,
                  to_date := toDate, when_generated := wg }

/-- Modelled from the spec: decoding of the per-day statement elements
of a `FlexStatements` wrapper, in document order; any failure aborts
the whole decode. -/
def decodeStatements :
    List (String → Option String) →
      Except ParseError (List ActivityFlexStatement)
  | [] => Except.ok []
  | a :: rest =>
    match decodeActivityFlexStatement a with
    | Except.error e => Except.error e
    | Except.ok s =>
      match decodeStatements rest with
      | Except.error e => Except.error e
      | Except.ok ss => Except.ok (s :: ss)

/-- Modelled from the spec: decoding of a top-level
`FlexQueryResponse` whose `FlexStatements` wrapper holds the given
per-day statement elements. -/
def decodeFlexQueryResponse (query_name query_type count : Option String)
    (children : List (String → Option String)) :
    Except ParseError FlexQueryResponse :=
  match decodeStatements children with
  | Except.error e => Except.error e
  | Except.ok stmts =>
    Except.ok
      { query_name := query_name, query_type := query_type,
        statements := { count := count, statements := stmts } }

/-! ## Root dispatcher (`src/version.rs`) -/

/-- FLEX statement type, `StatementType` in `src/lib.rs`. -/
inductive StatementType where
  | Activity
  | TradeConfirmation
deriving DecidableEq, Repr

/-- Fuel-driven worker of `trim_start_matches` with the fixed pattern
of the XML declaration opener. -/
def stripXmlDeclFuel : Nat → List Char → List Char
  | 0, s => s
  | fuel + 1, s =>
    if ("<?xml".data).isPrefixOf s then stripXmlDeclFuel fuel (s.drop 5)
    else s

/-- Rust `trim_start_matches("<?xml")`: repeatedly strip the prefix
while it matches. -/
def stripXmlDecl (s : List Char) : List Char := stripXmlDeclFuel s.length s

/-- The error message of `detect_statement_type` for an unrecognized
root: the first 100 characters of the processed input. -/
def detectErrorMsg (t : List Char) : String :=
  "Cannot detect statement type from XML root element: "
    ++ String.mk (t.take 100)

/-- `detect_statement_type` of `src/version.rs`: trim leading
whitespace, strip the XML declaration opener, trim again, skip to the
first `<`, then classify by prefix: `<FlexQueryResponse` and a bare
`<FlexStatement` are activity statements, `<TradeConfirmationStatement`
is a trade confirmation, anything else is an error. -/
def detect_statement_type (xml : String) :
    Except String StatementType :=
  let t1 := xml.data.dropWhile Char.isWhitespace
  let t2 := stripXmlDecl t1
  let t3 := t2.dropWhile Char.isWhitespace
  let t := t3.dropWhile (fun c => c ≠ '<')
  if ("<FlexQueryResponse".data).isPrefixOf t then
    Except.ok StatementType.Activity
  else if ("<TradeConfirmationStatement".data).isPrefixOf t then
    Except.ok StatementType.TradeConfirmation
  else if ("<FlexStatement".data).isPrefixOf t then
    Except.ok StatementType.Activity
  else
    Except.error (detectErrorMsg t)

/-! ## Theorems -/

/-- Generalized routing lemma: the loop of `TradesWrapper::deserialize`
appends precisely the `Trade`-tagged and `WashSale`-tagged payloads, in
input order, to the respective accumulator buckets. -/
theorem routeTradesItems_spec (l : List TradesItem) (acc : TradesWrapper) :
    routeTradesItems l acc =
      { items := acc.items ++ l.filterMap
          (fun i => match i with | .Trade t => some t | _ => none),
        wash_sales := acc.wash_sales ++ l.filterMap
          (fun i => match i with | .WashSale t => some t | _ => none) } := by
  induction l generalizing acc with
  | nil => simp [routeTradesItems]
  | cons item rest ih =>
    cases item <;> simp [routeTradesItems, ih, List.filterMap_cons]

/-- Claim C1: deserializing a trade-activity section whose children
interleave the six element kinds yields a wrapper whose `items` are
exactly the `Trade`-tagged payloads in original relative order, whose
`wash_sales` are exactly the `WashSale`-tagged payloads in original
relative order, and into which no `Order`, `SymbolSummary`,
`AssetSummary` or `Lot` element is placed; the discarding is silent
(the classifier is total, so no error is possible). -/
theorem trades_section_classifier (raw : List TradesItem) :
    (TradesWrapper.deserialize raw).items
      = raw.filterMap (fun i => match i with | .Trade t => some t | _ => none)
  ∧ (TradesWrapper.deserialize raw).wash_sales
      = raw.filterMap (fun i => match i with | .WashSale t => some t | _ => none) := by
  rw [TradesWrapper.deserialize, routeTradesItems_spec]
  simp

/-- Claim C2: the `derivative()` projection of a `Trade` is populated
exactly when the asset category is `Option`, `Future`, `FutureOption`
or `Warrant` and the category-specific required fields are present
(strike, expiry, put/call and underlying symbol for the option kinds;
expiry and underlying symbol for futures; underlying symbol for
warrants), and whenever it is populated every field of the projection
is taken verbatim from the trade — never fabricated. -/
theorem trade_derivative_spec (t : Trade) :
    (t.derivative.isSome ↔
      (t.asset_category = .Option ∧ t.strike.isSome ∧ t.expiry.isSome
        ∧ t.put_call.isSome ∧ t.underlying_symbol.isSome)
      ∨ (t.asset_category = .Future ∧ t.expiry.isSome
          ∧ t.underlying_symbol.isSome)
      ∨ (t.asset_category = .FutureOption ∧ t.strike.isSome
          ∧ t.expiry.isSome ∧ t.put_call.isSome
          ∧ t.underlying_symbol.isSome)
      ∨ (t.asset_category = .Warrant ∧ t.underlying_symbol.isSome))
  ∧ (∀ s e pc us uc, t.derivative = some (.Opt s e pc us uc) →
      t.asset_category = .Option ∧ t.strike = some s ∧ t.expiry = some e
        ∧ t.put_call = some pc ∧ t.underlying_symbol = some us
        ∧ uc = t.underlying_conid)
  ∧ (∀ e us uc, t.derivative = some (.Future e us uc) →
      t.asset_category = .Future ∧ t.expiry = some e
        ∧ t.underlying_symbol = some us ∧ uc = t.underlying_conid)
  ∧ (∀ s e pc us uc, t.derivative = some (.FutureOption s e pc us uc) →
      t.asset_category = .FutureOption ∧ t.strike = some s
        ∧ t.expiry = some e ∧ t.put_call = some pc
        ∧ t.underlying_symbol = some us ∧ uc = t.underlying_conid)
  ∧ (∀ s e us, t.derivative = some (.Warrant s e us) →
      t.asset_category = .Warrant ∧ s = t.strike ∧ e = t.expiry
        ∧ us = t.underlying_symbol ∧ us.isSome) := by
  rcases hc : t.asset_category <;>
    simp only [Trade.derivative, hc] <;>
    rcases t.strike <;> rcases t.expiry <;> rcases t.put_call <;>
      rcases t.underlying_symbol <;> simp_all

/-- A concrete option trade with the four required derivative
fields present. -/
def sampleOptionTrade : Trade :=
  { account_id := "U1234567", conid := "987654",
    symbol := "AAPL  250117C00150000", asset_category := .Option,
    currency := "USD", strike := some ⟨15000, 2⟩,
    expiry := some ⟨2025, 1, 17⟩, put_call := some .Call,
    underlying_symbol := some "AAPL" }

/-- Witness for C2: on a concrete option trade the projection is
populated and reproduces the trade's own field values. -/
theorem trade_derivative_spec_witness :
    sampleOptionTrade.asset_category = .Option
      ∧ sampleOptionTrade.strike = some ⟨15000, 2⟩
      ∧ sampleOptionTrade.expiry = some ⟨2025, 1, 17⟩
      ∧ sampleOptionTrade.put_call = some .Call
      ∧ sampleOptionTrade.underlying_symbol = some "AAPL"
      ∧ none = sampleOptionTrade.underlying_conid :=
  (trade_derivative_spec sampleOptionTrade).2.1 ⟨15000, 2⟩ ⟨2025, 1, 17⟩
    .Call "AAPL" none rfl

/-- Claim C5: the boolean decoder accepts exactly `Y`/`y` (true),
`N`/`n` (false) and empty/absent (no value); every other token is a
decode error, never a default. -/
theorem optional_bool_decoder_spec (s : Option String) :
    (deserialize_optional_bool s = .ok (some true)
      ↔ s = some "Y" ∨ s = some "y")
  ∧ (deserialize_optional_bool s = .ok (some false)
      ↔ s = some "N" ∨ s = some "n")
  ∧ (deserialize_optional_bool s = .ok none ↔ s = none ∨ s = some "")
  ∧ ((deserialize_optional_bool s).isOk = false ↔
      s ≠ none ∧ s ≠ some "" ∧ s ≠ some "Y" ∧ s ≠ some "y"
        ∧ s ≠ some "N" ∧ s ≠ some "n") := by
  cases s with
  | none => simp [deserialize_optional_bool, Except.isOk, Except.toBool]
  | some t =>
    simp only [deserialize_optional_bool]
    split_ifs <;> simp_all [Except.isOk, Except.toBool]

/-- Witness for C5: `X` is rejected with an error while `y` decodes
to true. -/
theorem optional_bool_decoder_spec_witness :
    (deserialize_optional_bool (some "X")).isOk = false
      ∧ deserialize_optional_bool (some "y") = .ok (some true) :=
  ⟨(optional_bool_decoder_spec (some "X")).2.2.2.mpr (by decide),
   (optional_bool_decoder_spec (some "y")).1.mpr (Or.inr rfl)⟩

/-- Claim C6: for every optional field, an attribute present with the
empty string and an omitted attribute decode to the same result,
namely no value: this holds for each of the five custom optional
decoders of `xml_utils.rs` and for the plain optional attribute
fields (the latter modelled from the spec, since their serde-derived
plumbing is outside `src/`). -/
theorem empty_equals_omitted (attrs : String → Option String) (name : String) :
    deserialize_optional_decimal (some "") = .ok none
  ∧ deserialize_optional_decimal none = .ok none
  ∧ deserialize_optional_date (some "") = .ok none
  ∧ deserialize_optional_date none = .ok none
  ∧ deserialize_optional_string (some "") = .ok none
  ∧ deserialize_optional_string none = .ok none
  ∧ deserialize_optional_bool (some "") = .ok none
  ∧ deserialize_optional_bool none = .ok none
  ∧ deserialize_transaction_codes (some "") = .ok none
  ∧ deserialize_transaction_codes none = .ok none
  ∧ plainOptionalAttr (fun n => if n = name then some "" else attrs n) name
      = plainOptionalAttr (fun n => if n = name then none else attrs n) name := by
  refine ⟨rfl, rfl, rfl, rfl, rfl, rfl, rfl, rfl, rfl, rfl, ?_⟩
  simp [plainOptionalAttr]

/-- A token outside the asset-category vocabulary decodes to
`Unknown`. -/
theorem assetCategory_unknown_of_not_mem (s : String)
    (h : s ∉ assetCategoryVocab) : parseAssetCategory s = .Unknown := by
  simp only [assetCategoryVocab, List.mem_cons, List.not_mem_nil,
    or_false, not_or] at h
  obtain ⟨n1, n2, n3, n4, n5, n6, n7, n8, n9, n10, n11, n12, n13, n14,
    n15, n16, n17, n18, n19⟩ := h
  unfold parseAssetCategory
  rw [if_neg n1, if_neg n2, if_neg n3, if_neg n4, if_neg n5, if_neg n6,
    if_neg n7, if_neg n8, if_neg n9, if_neg n10, if_neg n11, if_neg n12,
    if_neg n13, if_neg n14, if_neg n15, if_neg n16, if_neg n17,
    if_neg n18, if_neg n19]

/-- A token outside the order-type vocabulary decodes to `Unknown`. -/
theorem orderType_unknown_of_not_mem (s : String)
    (h : s ∉ orderTypeVocab) : parseOrderType s = .Unknown := by
  simp only [orderTypeVocab, List.mem_cons, List.not_mem_nil,
    or_false, not_or] at h
  obtain ⟨n1, n2, n3, n4, n5, n6, n7, n8, n9, n10, n11, n12, n13⟩ := h
  unfold parseOrderType
  rw [if_neg n1, if_neg n2, if_neg n3, if_neg n4, if_neg n5, if_neg n6,
    if_neg n7, if_neg n8, if_neg n9, if_neg n10, if_neg n11, if_neg n12,
    if_neg n13]

/-- Claim C7: an enumerated-code attribute holding a token outside the
modeled vocabulary decodes to the table's reserved `Unknown` variant
and never to an error (the table decoders are total functions), and
conversely only vocabulary tokens produce a non-`Unknown` variant;
shown for the asset-category and order-type tables cited by the
claim. -/
theorem unknown_code_decodes_to_unknown (s : String) :
    (s ∉ assetCategoryVocab → parseAssetCategory s = .Unknown)
  ∧ (s ∉ orderTypeVocab → parseOrderType s = .Unknown)
  ∧ (parseAssetCategory s ≠ .Unknown → s ∈ assetCategoryVocab)
  ∧ (parseOrderType s ≠ .Unknown → s ∈ orderTypeVocab) := by
  refine ⟨assetCategory_unknown_of_not_mem s, orderType_unknown_of_not_mem s,
    fun h => Classical.byContradiction
      (fun hm => h (assetCategory_unknown_of_not_mem s hm)),
    fun h => Classical.byContradiction
      (fun hm => h (orderType_unknown_of_not_mem s hm))⟩

/-- Witness for C7: the unrecognized token `WIDGET` decodes to
`Unknown` in both cited tables. -/
theorem unknown_code_decodes_to_unknown_witness :
    parseAssetCategory "WIDGET" = .Unknown
      ∧ parseOrderType "WIDGET" = .Unknown :=
  ⟨(unknown_code_decodes_to_unknown "WIDGET").1 (by decide),
   (unknown_code_decodes_to_unknown "WIDGET").2.1 (by decide)⟩

/-- A string whose character list is empty is the empty string. -/
theorem eq_empty_of_data_eq_nil (t : String) (h : t.data = []) : t = "" := by
  cases t
  cases h
  rfl

/-- Rebuilding a string from its own character list is the
identity. -/
theorem mk_data_eq (t : String) : String.mk t.data = t := by
  cases t
  rfl

/-- Splitting a separator-free chunk yields just that chunk. -/
theorem splitSemis_no_sep (w : List Char) (h : ';' ∉ w) :
    splitSemis w = [w] := by
  induction w with
  | nil => rfl
  | cons c cs ih =>
    have hc : ¬ c = ';' := fun e => h (e ▸ List.mem_cons_self c cs)
    have hcs : ';' ∉ cs := fun m => h (List.mem_cons_of_mem c m)
    simp only [splitSemis, if_neg hc, ih hcs]

/-- Splitting a separator-free chunk followed by a separator peels off
that chunk. -/
theorem splitSemis_append (w rest : List Char) (h : ';' ∉ w) :
    splitSemis (w ++ ';' :: rest) = w :: splitSemis rest := by
  induction w with
  | nil => simp [splitSemis]
  | cons c cs ih =>
    have hc : ¬ c = ';' := fun e => h (e ▸ List.mem_cons_self c cs)
    have hcs : ';' ∉ cs := fun m => h (List.mem_cons_of_mem c m)
    simp only [List.cons_append, splitSemis, if_neg hc]
    rw [show cs.append (';' :: rest) = cs ++ ';' :: rest from rfl, ih hcs]

/-- Join a token list with semicolon separators (the inverse image
construction for the code-list decoder). -/
def joinSemis : List String → String
  | [] => ""
  | [t] => t
  | t :: ts => t ++ ";" ++ joinSemis ts

/-- Splitting a semicolon join of nonempty, separator-free tokens,
dropping empty chunks, and decoding each remaining token reproduces
the token sequence with its order and multiplicity. -/
theorem codes_pipeline (ts : List String) (hne : ts ≠ [])
    (h : ∀ t ∈ ts, t ≠ "" ∧ ';' ∉ t.data) :
    ((splitSemis (joinSemis ts).data).filter (fun w => !w.isEmpty)).map
        (fun w => parseTransactionCode (String.mk w))
      = ts.map parseTransactionCode := by
  induction ts with
  | nil => exact absurd rfl hne
  | cons t ts ih =>
    obtain ⟨ht0, ht1⟩ := h t (List.mem_cons_self t ts)
    have hdata : t.data ≠ [] := fun e => ht0 (eq_empty_of_data_eq_nil t e)
    obtain ⟨c, cs, hc⟩ : ∃ c cs, t.data = c :: cs := by
      cases he : t.data with
      | nil => exact absurd he hdata
      | cons c cs => exact ⟨c, cs, rfl⟩
    cases ts with
    | nil =>
      rw [show joinSemis [t] = t from rfl, splitSemis_no_sep t.data ht1]
      have hempty : t.data.isEmpty = false := by rw [hc]; rfl
      simp [List.filter_cons, hempty, mk_data_eq]
    | cons t2 ts2 =>
      have hjoin : joinSemis (t :: t2 :: ts2) = t ++ ";" ++ joinSemis (t2 :: ts2) := rfl
      have hjdata : (joinSemis (t :: t2 :: ts2)).data
          = t.data ++ ';' :: (joinSemis (t2 :: ts2)).data := by
        rw [hjoin]
        simp [String.data_append]
      rw [hjdata, splitSemis_append _ _ ht1]
      have htail := ih (List.cons_ne_nil t2 ts2)
        (fun u hu => h u (List.mem_cons_of_mem t hu))
      have hempty : t.data.isEmpty = false := by rw [hc]; rfl
      simp [List.filter_cons, hempty, mk_data_eq, htail]

/-- Claim C3 counterexample: on the input `C;` the semicolon split
yields two tokens (`C` and the empty token), but the decoder drops the
empty token instead of mapping it through the table, so the resulting
list has only one entry — the sequence and multiplicity of the split
tokens is not retained. -/
theorem transaction_codes_counterexample :
    deserialize_transaction_codes (some "C;")
        = .ok (some [TransactionCode.Closing])
  ∧ (splitSemis "C;".data).length = 2 :=
  ⟨rfl, rfl⟩

/-- Claim C3 (amended): the code-list decoder splits the attribute on
semicolons, discards empty tokens, maps every remaining token through
the `TransactionCode` table (with unrecognized tokens decoding to the
reserved `Unknown` member, surfaced in the source only as a stderr
warning), never returns an error, and the resulting list retains the
sequence and multiplicity of the nonempty input tokens. -/
theorem transaction_codes_decode_amended (ts : List String)
    (h1 : ts ≠ []) (h2 : ∀ t ∈ ts, t ≠ "" ∧ ';' ∉ t.data) :
    deserialize_transaction_codes (some (joinSemis ts))
        = .ok (some (ts.map parseTransactionCode))
  ∧ (∀ s : Option String, (deserialize_transaction_codes s).isOk = true) := by
  constructor
  · have hjoin : ¬ joinSemis ts = "" := by
      cases ts with
      | nil => exact absurd rfl h1
      | cons t ts =>
        obtain ⟨ht0, _⟩ := h2 t (List.mem_cons_self t ts)
        cases ts with
        | nil => exact ht0
        | cons t2 ts2 =>
          intro he
          have : (joinSemis (t :: t2 :: ts2)).data = [] := by
            rw [he]
          rw [show joinSemis (t :: t2 :: ts2) = t ++ ";" ++ joinSemis (t2 :: ts2) from rfl] at this
          simp [String.data_append] at this

    simp only [deserialize_transaction_codes, if_neg hjoin,
      codes_pipeline ts h1 h2]
  · intro s
    cases s with
    | none => rfl
    | some t =>
      simp only [deserialize_transaction_codes]
      split_ifs <;> rfl

/-- Witness for amended C3: three tokens, one of them unrecognized,
decode in order with the unknown one mapped to `Unknown`. -/
theorem transaction_codes_decode_amended_witness :
    deserialize_transaction_codes (some (joinSemis ["C", "W", "XYZ"]))
        = .ok (some (["C", "W", "XYZ"].map parseTransactionCode))
  ∧ ["C", "W", "XYZ"].map parseTransactionCode
      = [TransactionCode.Closing, TransactionCode.WashSale,
         TransactionCode.Unknown] :=
  ⟨(transaction_codes_decode_amended ["C", "W", "XYZ"] (by decide)
      (by decide)).1,
   by decide⟩

/-- The character of a decimal digit. -/
def digitChar (n : Nat) : Char := Char.ofNat (48 + n % 10)

/-- Last two decimal digits of a number, as characters. -/
def pad2 (n : Nat) : List Char := [digitChar (n / 10), digitChar n]

/-- Last four decimal digits of a number, as characters. -/
def pad4 (n : Nat) : List Char :=
  [digitChar (n / 1000), digitChar (n / 100), digitChar (n / 10), digitChar n]

/-- The ISO textual form `YYYY-MM-DD` of a calendar date. -/
def isoDateString (y m d : Nat) : String :=
  String.mk (pad4 y ++ '-' :: (pad2 m ++ '-' :: pad2 d))

/-- The compact textual form `YYYYMMDD` of a calendar date. -/
def compactDateString (y m d : Nat) : String :=
  String.mk (pad4 y ++ (pad2 m ++ pad2 d))

/-- Digit characters are digits. -/
theorem digitChar_isDigit (n : Nat) : (digitChar n).isDigit = true := by
  have h : n % 10 < 10 := Nat.mod_lt _ (by norm_num)
  unfold digitChar
  generalize n % 10 = k at h
  interval_cases k <;> decide

/-- The value of a digit character. -/
theorem digitVal_digitChar (n : Nat) : digitVal (digitChar n) = n % 10 := by
  have h : n % 10 < 10 := Nat.mod_lt _ (by norm_num)
  unfold digitChar digitVal
  generalize n % 10 = k at h ⊢
  interval_cases k <;> decide

/-- A digit character is never the dash separator. -/
theorem digitChar_ne_dash (n : Nat) : ¬ digitChar n = '-' := by
  have h : n % 10 < 10 := Nat.mod_lt _ (by norm_num)
  unfold digitChar
  generalize n % 10 = k at h
  interval_cases k <;> decide

/-- Scanning exactly as many digits as the width consumes them and
leaves the rest untouched. -/
theorem scanDigits_all_digits (ds : List Char) (rest : List Char)
    (acc : Nat) (h : ∀ c ∈ ds, c.isDigit = true) :
    scanDigits ds.length (ds ++ rest) acc
      = (ds.foldl (fun a c => a * 10 + digitVal c) acc, rest) := by
  induction ds generalizing acc with
  | nil => rfl
  | cons c cs ih =>
    have hc := h c (List.mem_cons_self c cs)
    simp only [List.cons_append, List.length_cons, scanDigits, hc,
      if_true, List.foldl_cons]
    exact ih (acc * 10 + digitVal c)
      (fun u hu => h u (List.mem_cons_of_mem c hu))

/-- A number consisting of exactly the width many digits scans to its
value, leaving the rest. -/
theorem scanNumber_exact (ds rest : List Char)
    (h : ∀ c ∈ ds, c.isDigit = true) (hne : ds ≠ []) :
    scanNumber (ds ++ rest) ds.length
      = some (ds.foldl (fun a c => a * 10 + digitVal c) 0, rest) := by
  cases ds with
  | nil => exact absurd rfl hne
  | cons c cs =>
    have hc := h c (List.mem_cons_self c cs)
    simp only [List.cons_append, scanNumber, hc, if_true]
    exact congrArg some (scanDigits_all_digits (c :: cs) rest 0 h)

/-- Every character of `pad4` is a digit. -/
theorem pad4_digits (y : Nat) : ∀ c ∈ pad4 y, c.isDigit = true := by
  simp [pad4, digitChar_isDigit]

/-- Every character of `pad2` is a digit. -/
theorem pad2_digits (m : Nat) : ∀ c ∈ pad2 m, c.isDigit = true := by
  simp [pad2, digitChar_isDigit]

/-- The numeric value recovered from `pad4` of a four-digit number. -/
theorem pad4_foldl (y : Nat) (hy : y < 10000) :
    (pad4 y).foldl (fun a c => a * 10 + digitVal c) 0 = y := by
  simp only [pad4, List.foldl_cons, List.foldl_nil, digitVal_digitChar]
  omega

/-- The numeric value recovered from `pad2` of a two-digit number. -/
theorem pad2_foldl (m : Nat) (hm : m < 100) :
    (pad2 m).foldl (fun a c => a * 10 + digitVal c) 0 = m := by
  simp only [pad2, List.foldl_cons, List.foldl_nil, digitVal_digitChar]
  omega

/-- The ISO grammar accepts the canonical `YYYY-MM-DD` rendering of a
valid date. -/
theorem parseIsoDate_canonical (y m d : Nat) (hy : y < 10000)
    (hm : m < 100) (hd : d < 100) (hv : validYmd y m d = true) :
    parseIsoDate (pad4 y ++ '-' :: (pad2 m ++ '-' :: pad2 d))
      = some ⟨y, m, d⟩ := by
  have h1 := scanNumber_exact (pad4 y) ('-' :: (pad2 m ++ '-' :: pad2 d))
    (pad4_digits y) (by simp [pad4])
  rw [show (pad4 y).length = 4 from rfl, pad4_foldl y hy] at h1
  have h2 := scanNumber_exact (pad2 m) ('-' :: pad2 d)
    (pad2_digits m) (by simp [pad2])
  rw [show (pad2 m).length = 2 from rfl, pad2_foldl m hm] at h2
  have h3 := scanNumber_exact (pad2 d) [] (pad2_digits d) (by simp [pad2])
  rw [show (pad2 d).length = 2 from rfl, pad2_foldl d hd,
    List.append_nil] at h3
  simp [parseIsoDate, h1, h2, h3, expectChar, hv]

/-- The compact grammar accepts the canonical `YYYYMMDD` rendering of
a valid date. -/
theorem parseCompactDate_canonical (y m d : Nat) (hy : y < 10000)
    (hm : m < 100) (hd : d < 100) (hv : validYmd y m d = true) :
    parseCompactDate (pad4 y ++ (pad2 m ++ pad2 d)) = some ⟨y, m, d⟩ := by
  have h1 := scanNumber_exact (pad4 y) (pad2 m ++ pad2 d)
    (pad4_digits y) (by simp [pad4])
  rw [show (pad4 y).length = 4 from rfl, pad4_foldl y hy] at h1
  have h2 := scanNumber_exact (pad2 m) (pad2 d)
    (pad2_digits m) (by simp [pad2])
  rw [show (pad2 m).length = 2 from rfl, pad2_foldl m hm] at h2
  have h3 := scanNumber_exact (pad2 d) [] (pad2_digits d) (by simp [pad2])
  rw [show (pad2 d).length = 2 from rfl, pad2_foldl d hd,
    List.append_nil] at h3
  simp [parseCompactDate, h1, h2, h3, hv]

/-- The ISO grammar rejects the compact rendering: after the year
digits it demands a dash but finds the first month digit. -/
theorem parseIsoDate_rejects_compact (y m d : Nat) :
    parseIsoDate (pad4 y ++ (pad2 m ++ pad2 d)) = none := by
  have h1 := scanNumber_exact (pad4 y) (pad2 m ++ pad2 d)
    (pad4_digits y) (by simp [pad4])
  rw [show (pad4 y).length = 4 from rfl] at h1
  have hexp : expectChar '-' (pad2 m ++ pad2 d) = none := by
    simp [pad2, expectChar, digitChar_ne_dash]
  simp [parseIsoDate, h1, hexp]

set_option maxHeartbeats 1000000 in
/-- No month has more than 31 days. -/
theorem daysInMonth_le (y m : Nat) : daysInMonth y m ≤ 31 := by
  unfold daysInMonth
  split_ifs <;> omega

/-- Claim C4: the date decoder tries the ISO form `YYYY-MM-DD` first
and then the compact form `YYYYMMDD`, failing when neither matches;
consequently for every valid calendar date (expressible in those
four-digit-year textual forms) decoding the ISO rendering and
decoding the compact rendering yield the same date value. -/
theorem flex_date_form_agnostic (y m d : Nat) (hy : y ≤ 9999)
    (hv : validYmd y m d = true) :
    parse_flex_date (isoDateString y m d) = some ⟨y, m, d⟩
  ∧ parse_flex_date (compactDateString y m d) = some ⟨y, m, d⟩
  ∧ parse_flex_date (isoDateString y m d)
      = parse_flex_date (compactDateString y m d)
  ∧ (∀ s : String, parseIsoDate s.data = none →
      parse_flex_date s = parseCompactDate s.data)
  ∧ (∀ s : String, ∀ dd : FlexDate, parseIsoDate s.data = some dd →
      parse_flex_date s = some dd) := by
  have hy' : y < 10000 := by omega
  have hmd : 1 ≤ m ∧ m ≤ 12 ∧ 1 ≤ d ∧ d ≤ daysInMonth y m := by
    simpa [validYmd] using hv
  have hdm : daysInMonth y m ≤ 31 := daysInMonth_le y m
  have hm' : m < 100 := by omega
  have hd' : d < 100 := by omega
  have hiso := parseIsoDate_canonical y m d hy' hm' hd' hv
  have hcomp := parseCompactDate_canonical y m d hy' hm' hd' hv
  have hrej := parseIsoDate_rejects_compact y m d
  have e1 : parse_flex_date (isoDateString y m d) = some ⟨y, m, d⟩ := by
    unfold parse_flex_date
    rw [show (isoDateString y m d).data
        = pad4 y ++ '-' :: (pad2 m ++ '-' :: pad2 d) from rfl, hiso]
  have e2 : parse_flex_date (compactDateString y m d) = some ⟨y, m, d⟩ := by
    unfold parse_flex_date
    rw [show (compactDateString y m d).data
        = pad4 y ++ (pad2 m ++ pad2 d) from rfl, hrej]
    exact hcomp
  refine ⟨e1, e2, e1.trans e2.symm, ?_, ?_⟩
  · intro s hs
    unfold parse_flex_date
    rw [hs]
  · intro s dd hs
    unfold parse_flex_date
    rw [hs]

/-- Witness for C4: the date 2025-01-15 is valid, decodes from both
textual forms, and both decodes agree. -/
theorem flex_date_form_agnostic_witness :
    validYmd 2025 1 15 = true
  ∧ parse_flex_date (isoDateString 2025 1 15) = some ⟨2025, 1, 15⟩
  ∧ parse_flex_date (isoDateString 2025 1 15)
      = parse_flex_date (compactDateString 2025 1 15) :=
  ⟨by decide,
   (flex_date_form_agnostic 2025 1 15 (by decide) (by decide)).1,
   (flex_date_form_agnostic 2025 1 15 (by decide) (by decide)).2.2.1⟩

/-- End-to-end decoding of an activity document: decode the top-level
response from its attributes and per-day statement elements, then
extract the single statement as `parse_activity_flex` does. -/
def parseActivityFlexXml (qn qt cnt : Option String)
    (children : List (String → Option String)) :
    Except ParseError ActivityFlexStatement :=
  match decodeFlexQueryResponse qn qt cnt children with
  | Except.error e => Except.error e
  | Except.ok r => parse_activity_flex r

/-- A successful statement-sequence decode yields one statement per
element, in document order, each the successful decode of the
corresponding element. -/
theorem decodeStatements_spec :
    ∀ (l : List (String → Option String))
      (out : List ActivityFlexStatement),
      decodeStatements l = Except.ok out →
      out.length = l.length
      ∧ ∀ (i : Nat) (hc : i < l.length) (hs : i < out.length),
          decodeActivityFlexStatement (l.get ⟨i, hc⟩)
            = Except.ok (out.get ⟨i, hs⟩) := by
  intro l
  induction l with
  | nil =>
    intro out h
    cases h
    exact ⟨rfl, fun i hc _ => absurd hc (by simp)⟩
  | cons c cs ih =>
    intro out h
    cases hf : decodeActivityFlexStatement c with
    | error e => rw [decodeStatements, hf] at h; cases h
    | ok x =>
      rw [decodeStatements, hf] at h
      cases hm : decodeStatements cs with
      | error e => rw [hm] at h; cases h
      | ok xs =>
        rw [hm] at h
        cases h
        obtain ⟨hlen, hidx⟩ := ih xs hm
        refine ⟨by simp [hlen], ?_⟩
        intro i hc hs
        cases i with
        | zero => exact hf
        | succ j => exact hidx j (by simpa using hc) (by simpa using hs)

/-- Claim C8: decoding a top-level response wrapping several per-day
statements yields the sequence of all statement values in document
order (one per statement element), and `parse_activity_flex` returns
the first of that sequence, failing with a missing-field error when
the sequence is empty. -/
theorem multi_statement_document (qn qt cnt : Option String)
    (children : List (String → Option String))
    (stmts : List ActivityFlexStatement)
    (h : decodeStatements children = Except.ok stmts) :
    decodeFlexQueryResponse qn qt cnt children
        = Except.ok
            { query_name := qn, query_type := qt,
              statements := { count := cnt, statements := stmts } }
  ∧ stmts.length = children.length
  ∧ (∀ (i : Nat) (hc : i < children.length) (hs : i < stmts.length),
      decodeActivityFlexStatement (children.get ⟨i, hc⟩)
        = Except.ok (stmts.get ⟨i, hs⟩))
  ∧ (stmts = [] → parseActivityFlexXml qn qt cnt children
      = Except.error
          (ParseError.MissingField "FlexStatement" "FlexQueryResponse"))
  ∧ (∀ s rest, stmts = s :: rest →
      parseActivityFlexXml qn qt cnt children = Except.ok s) := by
  have hdec : decodeFlexQueryResponse qn qt cnt children
      = Except.ok
          { query_name := qn, query_type := qt,
            statements := { count := cnt, statements := stmts } } := by
    simp only [decodeFlexQueryResponse, h]
  obtain ⟨hlen, hidx⟩ := decodeStatements_spec children stmts h
  refine ⟨hdec, hlen, hidx, ?_, ?_⟩
  · intro he
    simp only [parseActivityFlexXml, hdec, parse_activity_flex, he]
  · intro s rest he
    simp only [parseActivityFlexXml, hdec, parse_activity_flex, he]

/-- Attributes of a concrete January statement element. -/
def sampleStatementAttrs1 : String → Option String := fun n =>
  if n = "accountId" then some "U1234567"
  else if n = "fromDate" then some "2025-01-01"
  else if n = "toDate" then some "2025-01-31"
  else if n = "whenGenerated" then some "2025-01-31;150000"
  else none

/-- Attributes of a concrete February statement element. -/
def sampleStatementAttrs2 : String → Option String := fun n =>
  if n = "accountId" then some "U1234567"
  else if n = "fromDate" then some "20250201"
  else if n = "toDate" then some "20250228"
  else if n = "whenGenerated" then some "2025-02-28;150000"
  else none

/-- The decoded January statement. -/
def sampleStatement1 : ActivityFlexStatement :=
  { account_id := "U1234567", from_date := ⟨2025, 1, 1⟩,
    to_date := ⟨2025, 1, 31⟩, when_generated := "2025-01-31;150000" }

/-- The decoded February statement. -/
def sampleStatement2 : ActivityFlexStatement :=
  { account_id := "U1234567", from_date := ⟨2025, 2, 1⟩,
    to_date := ⟨2025, 2, 28⟩, when_generated := "2025-02-28;150000" }

/-- Witness for C8: a document wrapping two per-day statements decodes
to that two-element sequence and the parser returns the first. -/
theorem multi_statement_document_witness :
    parseActivityFlexXml none none (some "2")
        [sampleStatementAttrs1, sampleStatementAttrs2]
      = Except.ok sampleStatement1 :=
  (multi_statement_document none none (some "2")
      [sampleStatementAttrs1, sampleStatementAttrs2]
      [sampleStatement1, sampleStatement2] rfl).2.2.2.2
    sampleStatement1 [sampleStatement2] rfl

/-- Skipping to the first `<` drops exactly the characters before
it. -/
theorem dropWhile_until_lt (q body : List Char)
    (h : ∀ c ∈ q, ¬ c = '<') :
    (q ++ '<' :: body).dropWhile (fun c => c ≠ '<') = '<' :: body := by
  induction q with
  | nil => simp [List.dropWhile_cons]
  | cons c cs ih =>
    have hc := h c (List.mem_cons_self c cs)
    have hd : (decide (c ≠ '<')) = true := decide_eq_true hc
    simp only [List.cons_append, List.dropWhile_cons, hd, if_true]
    exact ih (fun u hu => h u (List.mem_cons_of_mem c hu))

/-- Trimming whitespace and then skipping to the first `<` lands on
that `<` when everything before it is not `<`. -/
theorem trim_then_lt (q body : List Char) (h : ∀ c ∈ q, ¬ c = '<') :
    (((q ++ '<' :: body).dropWhile Char.isWhitespace).dropWhile
        (fun c => c ≠ '<')) = '<' :: body := by
  induction q with
  | nil =>
    simp only [List.nil_append, List.dropWhile_cons,
      show ('<').isWhitespace = false from by decide]
    simp [List.dropWhile_cons]
  | cons c cs ih =>
    have hc := h c (List.mem_cons_self c cs)
    have hd : (decide (c ≠ '<')) = true := decide_eq_true hc
    have htail := fun u hu => h u (List.mem_cons_of_mem c hu)
    by_cases hw : c.isWhitespace
    · simpa only [List.cons_append, List.dropWhile_cons, hw, if_true]
        using ih htail
    · simp only [Bool.not_eq_true] at hw
      simp only [List.cons_append, List.dropWhile_cons, hw,
        Bool.false_eq_true, if_false, hd, if_true]
      exact dropWhile_until_lt cs body htail

/-- Trimming whitespace drops an all-whitespace prefix up to the
first `<`. -/
theorem trim_ws_prefix (ws body : List Char)
    (h : ∀ c ∈ ws, c.isWhitespace = true) :
    (ws ++ '<' :: body).dropWhile Char.isWhitespace = '<' :: body := by
  induction ws with
  | nil =>
    simp [List.dropWhile_cons, show ('<').isWhitespace = false from by
      decide]
  | cons c cs ih =>
    have hc := h c (List.mem_cons_self c cs)
    simp only [List.cons_append, List.dropWhile_cons, hc, if_true]
    exact ih (fun u hu => h u (List.mem_cons_of_mem c hu))

/-- When the input does not start with the XML-declaration opener, the
stripping loop leaves it unchanged (at any fuel). -/
theorem stripXmlDeclFuel_no_prefix (fuel : Nat) (s : List Char)
    (h : ¬ (("<?xml".data).isPrefixOf s = true)) :
    stripXmlDeclFuel fuel s = s := by
  cases fuel <;> simp [stripXmlDeclFuel, h]

/-- When the input does not start with the XML-declaration opener,
`trim_start_matches` leaves it unchanged. -/
theorem stripXmlDecl_no_prefix (s : List Char)
    (h : ¬ (("<?xml".data).isPrefixOf s = true)) :
    stripXmlDecl s = s :=
  stripXmlDeclFuel_no_prefix s.length s h

/-- Stripping the XML-declaration opener once, when the remainder does
not start with another one. -/
theorem stripXmlDecl_once (rest : List Char)
    (h : ¬ (("<?xml".data).isPrefixOf rest = true)) :
    stripXmlDecl ("<?xml".data ++ rest) = rest := by
  have hpre : ("<?xml".data).isPrefixOf ("<?xml".data ++ rest) = true := by
    simp [List.isPrefixOf_iff_prefix]
  have hdrop : ("<?xml".data ++ rest).drop 5 = rest := by
    simp
  unfold stripXmlDecl
  rw [show ("<?xml".data ++ rest).length = (4 + rest.length) + 1 by
    simp [List.length_append]
    omega]
  rw [stripXmlDeclFuel, if_pos hpre, hdrop]
  exact stripXmlDeclFuel_no_prefix _ rest h

/-- A chunk that starts with anything other than `<` cannot start with
the XML-declaration opener. -/
theorem not_xml_prefix (q z : List Char) (hq : q ≠ [])
    (h : ∀ c ∈ q, ¬ c = '<') :
    ¬ (("<?xml".data).isPrefixOf (q ++ z) = true) := by
  cases q with
  | nil => exact absurd rfl hq
  | cons c cs =>
    have hc := h c (List.mem_cons_self c cs)
    intro hp
    rw [show "<?xml".data = '<' :: "?xml".data from rfl] at hp
    simp only [List.cons_append, List.isPrefixOf, Bool.and_eq_true,
      beq_iff_eq] at hp
    exact hc hp.1.symm

/-- Claim C9 counterexample: a document whose root element is the bare
`FlexStatement` — a root name the claim does not list among the two
recognized ones — is classified as the activity shape instead of
producing a decode error. -/
theorem root_dispatcher_counterexample :
    detect_statement_type "<FlexStatement accountId=\"U123\">"
        = Except.ok StatementType.Activity
  ∧ ¬ ("FlexStatement" = "FlexQueryResponse")
  ∧ ¬ ("FlexStatement" = "TradeConfirmationStatement") :=
  ⟨rfl, by decide, by decide⟩

/-- Claim C9 (amended): statement-type classification inspects only
the first significant element after any XML prolog; a root whose name
starts with `FlexQueryResponse` — or with the bare `FlexStatement` —
classifies as the day-end/activity shape, a root whose name starts
with `TradeConfirmationStatement` classifies as the real-time
trade-confirmation shape, and any other root element is a decode
error. -/
theorem root_dispatcher_amended :
    (∀ q body : List Char, q ≠ [] → (∀ c ∈ q, ¬ c = '<') →
      detect_statement_type (String.mk ("<?xml".data ++ (q ++ '<' :: body)))
        = (if ("FlexQueryResponse".data).isPrefixOf body then
             Except.ok StatementType.Activity
           else if ("TradeConfirmationStatement".data).isPrefixOf body then
             Except.ok StatementType.TradeConfirmation
           else if ("FlexStatement".data).isPrefixOf body then
             Except.ok StatementType.Activity
           else Except.error (detectErrorMsg ('<' :: body))))
  ∧ (∀ ws body : List Char, (∀ c ∈ ws, c.isWhitespace = true) →
      ¬ (("?xml".data).isPrefixOf body = true) →
      detect_statement_type (String.mk (ws ++ '<' :: body))
        = (if ("FlexQueryResponse".data).isPrefixOf body then
             Except.ok StatementType.Activity
           else if ("TradeConfirmationStatement".data).isPrefixOf body then
             Except.ok StatementType.TradeConfirmation
           else if ("FlexStatement".data).isPrefixOf body then
             Except.ok StatementType.Activity
           else Except.error (detectErrorMsg ('<' :: body)))) := by
  have hc1 : ∀ body : List Char,
      ("<FlexQueryResponse".data).isPrefixOf ('<' :: body)
        = ("FlexQueryResponse".data).isPrefixOf body := by
    intro body
    rw [show "<FlexQueryResponse".data
        = '<' :: "FlexQueryResponse".data from rfl]
    simp [List.isPrefixOf]
  have hc2 : ∀ body : List Char,
      ("<TradeConfirmationStatement".data).isPrefixOf ('<' :: body)
        = ("TradeConfirmationStatement".data).isPrefixOf body := by
    intro body
    rw [show "<TradeConfirmationStatement".data
        = '<' :: "TradeConfirmationStatement".data from rfl]
    simp [List.isPrefixOf]
  have hc3 : ∀ body : List Char,
      ("<FlexStatement".data).isPrefixOf ('<' :: body)
        = ("FlexStatement".data).isPrefixOf body := by
    intro body
    rw [show "<FlexStatement".data = '<' :: "FlexStatement".data from rfl]
    simp [List.isPrefixOf]
  constructor
  · intro q body hq hqlt
    have hnp := not_xml_prefix q ('<' :: body) hq hqlt
    have e1 : ("<?xml".data ++ (q ++ '<' :: body)).dropWhile
        Char.isWhitespace = "<?xml".data ++ (q ++ '<' :: body) := by
      rw [show "<?xml".data = '<' :: "?xml".data from rfl]
      simp [List.dropWhile_cons,
        show ('<').isWhitespace = false from by decide]
    have e2 := stripXmlDecl_once (q ++ '<' :: body) hnp
    have e3 := trim_then_lt q body hqlt
    simp only [detect_statement_type, String.data]
    rw [e1, e2, e3, hc1, hc2, hc3]
  · intro ws body hws hnb
    have hnp : ¬ (("<?xml".data).isPrefixOf ('<' :: body) = true) := by
      rw [show "<?xml".data = '<' :: "?xml".data from rfl]
      simp only [List.isPrefixOf, Bool.and_eq_true, beq_iff_eq]
      intro hp
      exact hnb hp.2
    have e1 := trim_ws_prefix ws body hws
    have e2 := stripXmlDecl_no_prefix ('<' :: body) hnp
    have e3 : (('<' :: body).dropWhile Char.isWhitespace).dropWhile
        (fun c => c ≠ '<') = '<' :: body := by
      simp [List.dropWhile_cons,
        show ('<').isWhitespace = false from by decide]
    simp only [detect_statement_type, String.data]
    rw [e1, e2, e3, hc1, hc2, hc3]

/-- Witness for amended C9: a document with a standard XML prolog and
a `FlexQueryResponse` root classifies as the activity shape. -/
theorem root_dispatcher_amended_witness :
    detect_statement_type
        (String.mk ("<?xml".data
          ++ (" version=\"1.0\" encoding=\"UTF-8\"?>".data
            ++ '<' :: "FlexQueryResponse queryName=\"A\">".data)))
      = Except.ok StatementType.Activity := by
  rw [root_dispatcher_amended.1 " version=\"1.0\" encoding=\"UTF-8\"?>".data
    "FlexQueryResponse queryName=\"A\">".data (by decide) (by decide)]
  rfl

/-- Statement attributes whose date range runs backwards (start after
end). -/
def reversedRangeAttrs : String → Option String := fun n =>
  if n = "accountId" then some "U1234567"
  else if n = "fromDate" then some "2025-02-01"
  else if n = "toDate" then some "2025-01-01"
  else if n = "whenGenerated" then some "2025-02-01;120000"
  else none

/-- The statement decoded from `reversedRangeAttrs`. -/
def reversedRangeStatement : ActivityFlexStatement :=
  { account_id := "U1234567", from_date := ⟨2025, 2, 1⟩,
    to_date := ⟨2025, 1, 1⟩, when_generated := "2025-02-01;120000" }

/-- Claim C10 counterexample: a statement element whose from-date
(2025-02-01) is strictly after its to-date (2025-01-01) decodes
successfully — through the full pipeline ending in
`parse_activity_flex` — into a statement violating the claimed
date-range invariant, because no component of the parser compares the
two dates. -/
theorem statement_date_range_counterexample :
    decodeActivityFlexStatement reversedRangeAttrs
        = Except.ok reversedRangeStatement
  ∧ parseActivityFlexXml none none (some "1") [reversedRangeAttrs]
        = Except.ok reversedRangeStatement
  ∧ FlexDate.le reversedRangeStatement.from_date
        reversedRangeStatement.to_date = false :=
  ⟨rfl, rfl, rfl⟩

/-- Claim C10 (amended): decoding a statement element succeeds with
exactly the two dates parsed from its attributes, for any pair of
parseable dates and regardless of their order — the parser does not
enforce the range invariant, which therefore holds in a decoded
statement exactly when the input dates already satisfy it. -/
theorem statement_date_range_amended (attrs : String → Option String)
    (acct fd td wg : String) (f t : FlexDate)
    (h1 : attrs "accountId" = some acct)
    (h2 : attrs "fromDate" = some fd)
    (h3 : attrs "toDate" = some td)
    (h4 : attrs "whenGenerated" = some wg)
    (h5 : parse_flex_date fd = some f)
    (h6 : parse_flex_date td = some t) :
    decodeActivityFlexStatement attrs
      = Except.ok
          { account_id := acct, from_date := f, to_date := t,
            when_generated := wg } := by
  simp only [decodeActivityFlexStatement, h1, h2, h3, h4,
    deserialize_flex_date, h5, h6]

/-- Witness for amended C10: concrete in-order attributes decode with
exactly the parsed dates. -/
theorem statement_date_range_amended_witness :
    decodeActivityFlexStatement sampleStatementAttrs1
      = Except.ok
          { account_id := "U1234567", from_date := ⟨2025, 1, 1⟩,
            to_date := ⟨2025, 1, 31⟩,
            when_generated := "2025-01-31;150000" } :=
  statement_date_range_amended sampleStatementAttrs1 "U1234567"
    "2025-01-01" "2025-01-31" "2025-01-31;150000" ⟨2025, 1, 1⟩
    ⟨2025, 1, 31⟩ rfl rfl rfl rfl rfl rfl

end IbFlex
